import Mathlib

/-!
Verification of the SmartFridge persistent data service
(`src/services/database.ts`, `FridgeDatabaseService`) and its Zod
validation schemas (`src/types/index.ts`) against the natural-language
specification.  The TypeScript code is shallowly embedded: machine state
(the in-memory database plus the primary/backup files on disk) is passed
explicitly, thrown JavaScript errors become explicit error values, and
the single-process clock is a parameter (`nowIso` as an ISO-8601 string
where the code stamps timestamps, `nowMs` as epoch milliseconds where the
code compares `Date` values).
-/

namespace SmartFridge

/-- Digit test for ISO-8601 parsing, mirroring the character classes of the
Zod `datetime` regular expression. -/
def isDigitCh (c : Char) : Bool := c.isDigit

/-- Hexadecimal-digit test used by the UUID format check of
`z.string().uuid()`. -/
def isHexCh (c : Char) : Bool :=
  c.isDigit || (('a' ≤ c && c ≤ 'f') || ('A' ≤ c && c ≤ 'F'))

/-- Numeric value of a decimal digit character. -/
def digitVal (c : Char) : Int := Int.ofNat (c.toNat - '0'.toNat)

/-- Value of a two-digit decimal field. -/
def twoDigits (a b : Char) : Int := 10 * digitVal a + digitVal b

/-- Value of a four-digit decimal field. -/
def fourDigits (a b c d : Char) : Int :=
  1000 * digitVal a + 100 * digitVal b + 10 * digitVal c + digitVal d

/-- Checks that every character of the list is a decimal digit. -/
def allDigits (l : List Char) : Bool := l.all isDigitCh

/-- Parses the optional fractional-seconds part and the final `Z` of an
ISO-8601 string: either exactly `Z`, or `.` followed by at least one digit
and `Z`.  Returns the fraction truncated to milliseconds, as
`Date.parse` does. -/
def parseFracZ : List Char → Option Int
  | ['Z'] => some 0
  | '.' :: rest =>
    match rest.dropLast with
    | [] => none
    | ds =>
      if rest.getLast? = some 'Z' && allDigits ds then
        some (match ds with
          | [a] => 100 * digitVal a
          | [a, b] => 100 * digitVal a + 10 * digitVal b
          | a :: b :: c :: _ => 100 * digitVal a + 10 * digitVal b + digitVal c
          | [] => 0)
      else none
  | _ => none

/-- Field decomposition of a string in the Zod v3 `z.string().datetime()`
format `YYYY-MM-DDTHH:MM:SS(.fff...)Z`.  Returns
`(year, month, day, hour, minute, second, milliseconds)` when the string
matches the format, `none` otherwise.  This is a format check only; range
validity is checked separately, as in the source stack (the Zod regex
accepts any digits, while `new Date` rejects out-of-range components). -/
def parseIsoFields (s : String) :
    Option (Int × Int × Int × Int × Int × Int × Int) :=
  match s.toList with
  | y1 :: y2 :: y3 :: y4 :: '-' :: mo1 :: mo2 :: '-' :: d1 :: d2 :: 'T' ::
      h1 :: h2 :: ':' :: mi1 :: mi2 :: ':' :: s1 :: s2 :: rest =>
    if allDigits [y1, y2, y3, y4, mo1, mo2, d1, d2, h1, h2, mi1, mi2, s1, s2] then
      match parseFracZ rest with
      | some frac =>
        some (fourDigits y1 y2 y3 y4, twoDigits mo1 mo2, twoDigits d1 d2,
              twoDigits h1 h2, twoDigits mi1 mi2, twoDigits s1 s2, frac)
      | none => none
    else none
  | _ => none

/-- Embedding of Zod `z.string().datetime()`: the string matches the
ISO-8601 UTC format accepted by the schema. -/
def isDatetime (s : String) : Bool := (parseIsoFields s).isSome

/-- Whether a (1-based) year is a Gregorian leap year. -/
def isLeap (y : Int) : Bool := (y % 4 = 0 && y % 100 ≠ 0) || y % 400 = 0

/-- Number of days in a month of a given year. -/
def daysInMonth (y m : Int) : Int :=
  if m = 2 then (if isLeap y then 29 else 28)
  else if m = 4 || m = 6 || m = 9 || m = 11 then 30
  else 31

/-- Days between 1970-01-01 and the given civil date (Hinnant's
`days_from_civil` algorithm); all intermediate divisions act on
non-negative operands for years 0000–9999. -/
def daysFromCivil (y m d : Int) : Int :=
  let yy := if m ≤ 2 then y - 1 else y
  let era := (if 0 ≤ yy then yy else yy - 399) / 400
  let yoe := yy - era * 400
  let mp := (m + 9) % 12
  let doy := (153 * mp + 2) / 5 + d - 1
  let doe := yoe * 365 + yoe / 4 - yoe / 100 + doy
  era * 146097 + doe - 719468

/-- Embedding of `new Date(s).getTime()` for strings in the schema's
datetime format (the only expiration strings a validated item can carry):
epoch milliseconds on success, `none` for the `NaN` (invalid date) case.
Component ranges are validated as the JavaScript ISO parser does. -/
def parseISO (s : String) : Option Int :=
  match parseIsoFields s with
  | none => none
  | some (y, mo, d, h, mi, se, frac) =>
    if 1 ≤ mo && mo ≤ 12 && 1 ≤ d && d ≤ daysInMonth y mo &&
        h ≤ 23 && mi ≤ 59 && se ≤ 59 then
      some (daysFromCivil y mo d * 86400000 + h * 3600000 + mi * 60000 +
            se * 1000 + frac)
    else none

/-- Embedding of the Zod v3 `z.string().uuid()` format check: 8-4-4-4-12
hexadecimal groups separated by hyphens. -/
def isUuid (s : String) : Bool :=
  match s.toList.splitOn '-' with
  | [a, b, c, d, e] =>
    a.length = 8 && b.length = 4 && c.length = 4 && d.length = 4 &&
    e.length = 12 && (a ++ b ++ c ++ d ++ e).all isHexCh
  | _ => false

/-- One Zod validation issue: offending field plus message, as configured
in `src/types/index.ts`. -/
structure ZodIssue where
  field : String
  message : String
deriving Repr, DecidableEq

/-- A stored food record, the shape of `FoodItem`
(`src/types/index.ts`).  Optional TypeScript fields are `Option`;
`quantity` is the JSON number (always an integer in every state the
claims exercise, so embedded as `Int`). -/
structure FoodItem where
  id : String
  name : String
  quantity : Int
  unit : String
  expirationDate : Option String
  category : Option String
  location : Option String
  notes : Option String
  addedDate : String
  lastModified : String
deriving Repr, DecidableEq

/-- Issues raised by `FoodItemSchema.parse` on a candidate record, in
field-declaration order.  A load-time candidate is embedded as a
`FoodItem` whose field values may violate the constraints. -/
def foodItemIssues (it : FoodItem) : List ZodIssue :=
  (if isUuid it.id then [] else [⟨"id", "Invalid uuid"⟩]) ++
  (if 1 ≤ it.name.length then [] else [⟨"name", "Name is required"⟩]) ++
  (if 0 ≤ it.quantity then [] else
    [⟨"quantity", "Quantity must be non-negative"⟩]) ++
  (if 1 ≤ it.unit.length then [] else [⟨"unit", "Unit is required"⟩]) ++
  (match it.expirationDate with
   | none => []
   | some e => if isDatetime e then [] else
      [⟨"expirationDate", "Invalid datetime"⟩]) ++
  (if isDatetime it.addedDate then [] else
    [⟨"addedDate", "Invalid datetime"⟩]) ++
  (if isDatetime it.lastModified then [] else
    [⟨"lastModified", "Invalid datetime"⟩])

/-- Whether `FoodItemSchema.parse` succeeds on the record. -/
def foodItemValid (it : FoodItem) : Bool := (foodItemIssues it).isEmpty

/-- A candidate `addFoodItem` request as it arrives at runtime: each field
may be absent (`none`), as an adapter can pass arbitrary JSON. -/
structure AddCandidate where
  name : Option String := none
  quantity : Option Int := none
  unit : Option String := none
  expirationDate : Option String := none
  category : Option String := none
  location : Option String := none
  notes : Option String := none
deriving Repr, DecidableEq

/-- A successfully parsed `AddFoodItemRequest`. -/
structure AddFoodItemRequest where
  name : String
  quantity : Int
  unit : String
  expirationDate : Option String
  category : Option String
  location : Option String
  notes : Option String
deriving Repr, DecidableEq

/-- Issues raised by `AddFoodItemRequestSchema.parse`, in
field-declaration order; Zod reports `Required` for a missing field and
the configured message for a violated constraint, and collects the issues
of every field rather than stopping at the first. -/
def addRequestIssues (r : AddCandidate) : List ZodIssue :=
  (match r.name with
   | none => [⟨"name", "Required"⟩]
   | some n => if 1 ≤ n.length then [] else [⟨"name", "Name is required"⟩]) ++
  (match r.quantity with
   | none => [⟨"quantity", "Required"⟩]
   | some q => if 1 ≤ q then [] else
      [⟨"quantity", "Quantity must be positive"⟩]) ++
  (match r.unit with
   | none => [⟨"unit", "Required"⟩]
   | some u => if 1 ≤ u.length then [] else [⟨"unit", "Unit is required"⟩]) ++
  (match r.expirationDate with
   | none => []
   | some e => if isDatetime e then [] else
      [⟨"expirationDate", "Invalid datetime"⟩])

/-- Embedding of `AddFoodItemRequestSchema.parse`: the validated request
on success, the full issue list on failure. -/
def parseAddRequest (r : AddCandidate) :
    Except (List ZodIssue) AddFoodItemRequest :=
  if addRequestIssues r = [] then
    match r.name, r.quantity, r.unit with
    | some n, some q, some u =>
      .ok ⟨n, q, u, r.expirationDate, r.category, r.location, r.notes⟩
    | _, _, _ => .error []
  else .error (addRequestIssues r)

/-- An `updateFoodItem` payload (`Partial<AddFoodItemRequest>` at the type
level, but at runtime a JSON body may also carry `id`, `addedDate` or
`lastModified` keys attempting to override the protected fields; the
object spread in the source would apply them before the forced
reassignments). `none` models an absent key. -/
structure UpdatePayload where
  name : Option String := none
  quantity : Option Int := none
  unit : Option String := none
  expirationDate : Option String := none
  category : Option String := none
  location : Option String := none
  notes : Option String := none
  id : Option String := none
  addedDate : Option String := none
  lastModified : Option String := none
deriving Repr, DecidableEq

/-- Embedding of the merge in `updateFoodItem`:
`{...existingItem, ...updates, id: existingItem.id, addedDate:
existingItem.addedDate, lastModified: now}` — supplied keys override the
existing values, then `id` and `addedDate` are forced back to the
existing record's values and `lastModified` to the current time. -/
def mergeUpdate (existing : FoodItem) (u : UpdatePayload) (nowIso : String) :
    FoodItem :=
  { id := existing.id
    name := u.name.getD existing.name
    quantity := u.quantity.getD existing.quantity
    unit := u.unit.getD existing.unit
    expirationDate := match u.expirationDate with
      | some e => some e
      | none => existing.expirationDate
    category := match u.category with
      | some c => some c
      | none => existing.category
    location := match u.location with
      | some l => some l
      | none => existing.location
    notes := match u.notes with
      | some n => some n
      | none => existing.notes
    addedDate := existing.addedDate
    lastModified := nowIso }

/-- Errors thrown by the service, as a value: the `ValidationError`,
`NotFoundError` and `DatabaseError` classes of `src/types/index.ts`, the
`ZodError` thrown by schema `.parse`, and plain `Error`.  `DatabaseError`
keeps its `originalError` cause. -/
inductive JsError where
  | validationError (message : String) (issues : List ZodIssue) : JsError
  | notFoundError (message : String) : JsError
  | databaseError (message : String) (cause : Option JsError) : JsError
  | zodError (issues : List ZodIssue) : JsError
  | genericError (message : String) : JsError
deriving Repr

/-- The parsed shape of a persisted database file: `rawItems = none`
models an `items` field that is not an array, and `version = none` an
absent version key. -/
structure RawDatabase where
  rawItems : Option (List FoodItem)
  lastModified : String
  version : Option String
deriving Repr, DecidableEq

/-- The state of one on-disk JSON file: absent (read fails with ENOENT),
present but not parseable as JSON (`corrupt`, carrying its opaque
contents), or present and parsed (`stored`). -/
inductive DiskFile where
  | absent : DiskFile
  | corrupt (contents : String) : DiskFile
  | stored (db : RawDatabase) : DiskFile
deriving Repr, DecidableEq

/-- The filesystem visible to the service: the primary `fridge.json`, the
`fridge.backup.json`, and a flag modelling whether the durable write
(temp-file write plus atomic rename) fails with an I/O error. -/
structure FS where
  primary : DiskFile
  backup : DiskFile
  writeFails : Bool := false
deriving Repr, DecidableEq

/-- The in-memory database after a successful load: a proper item array
plus envelope metadata. -/
structure FridgeDatabase where
  items : List FoodItem
  lastModified : String
  version : Option String
deriving Repr, DecidableEq

/-- Serialized form of the in-memory database. -/
def FridgeDatabase.toRaw (db : FridgeDatabase) : RawDatabase :=
  ⟨some db.items, db.lastModified, db.version⟩

/-- The service instance: `database = none` before `initialize` has
succeeded (the `this.database = null` state), plus the filesystem. -/
structure ServiceState where
  database : Option FridgeDatabase
  fs : FS
deriving Repr, DecidableEq

/-- Embedding of `createEmptyDatabase`. -/
def createEmptyDatabase (nowIso : String) : RawDatabase :=
  ⟨some [], nowIso, some "1.0.0"⟩

/-- Embedding of `saveDatabase` acting on a raw envelope (during load the
code saves whatever structure `this.database` currently holds).  Steps of
the source: if the primary file exists, copy it to the backup path
(best-effort); stamp `lastModified`; write a temp file and atomically
rename it over the primary.  On a write failure the primary is unchanged
(the rename is atomic) but the backup copy has already happened, and the
in-memory envelope keeps its new `lastModified` stamp. -/
def saveRawDb (nowIso : String) (db : RawDatabase) (fs : FS) :
    RawDatabase × FS × Option JsError :=
  let fs1 := match fs.primary with
    | .absent => fs
    | f => { fs with backup := f }
  let db1 := { db with lastModified := nowIso }
  if fs.writeFails then
    (db1, fs1, some (.databaseError "Failed to save database" none))
  else
    (db1, { fs1 with primary := .stored db1 }, none)

/-- Embedding of `saveDatabase` for the validated in-memory database. -/
def saveDatabase (nowIso : String) (db : FridgeDatabase) (fs : FS) :
    FridgeDatabase × FS × Option JsError :=
  let r := saveRawDb nowIso db.toRaw fs
  ({ db with lastModified := nowIso }, r.2.1, r.2.2)

/-- Truthiness of the `version` field: `undefined` or the empty string
triggers the backfill in `loadDatabase`. -/
def versionFalsy : Option String → Bool
  | none => true
  | some v => v.isEmpty

/-- Embedding of `loadDatabase`: read the primary (falling back to the
backup with repair-on-read, then to a fresh empty envelope), reject a
structure whose `items` is not an array, drop items failing
`FoodItemSchema`, and backfill an absent `version`.  Any error escaping
the body is wrapped as `DatabaseError("Failed to load database")`.  On
the error paths the partially assigned `this.database` reference is not
tracked, as no verified property depends on it. -/
def loadDatabase (nowIso : String) (fs : FS) :
    Except JsError (FridgeDatabase × FS) :=
  let phase1 : Except JsError (RawDatabase × FS) :=
    match fs.primary with
    | .stored raw => .ok (raw, fs)
    | _ =>
      match fs.backup with
      | .stored raw =>
        match saveRawDb nowIso raw fs with
        | (db1, fs1, none) => .ok (db1, fs1)
        | (_, _, some e) =>
          .error (.databaseError "Failed to load database" (some e))
      | _ =>
        match saveRawDb nowIso (createEmptyDatabase nowIso) fs with
        | (db1, fs1, none) => .ok (db1, fs1)
        | (_, _, some e) =>
          .error (.databaseError "Failed to load database" (some e))
  match phase1 with
  | .error e => .error e
  | .ok (raw, fs1) =>
    match raw.rawItems with
    | none =>
      .error (.databaseError "Failed to load database"
        (some (.genericError "Invalid database structure")))
    | some items =>
      let filtered := items.filter foodItemValid
      let db2 : RawDatabase := { raw with rawItems := some filtered }
      if versionFalsy db2.version then
        match saveRawDb nowIso { db2 with version := some "1.0.0" } fs1 with
        | (db3, fs2, none) =>
          .ok (⟨filtered, db3.lastModified, db3.version⟩, fs2)
        | (_, _, some e) =>
          .error (.databaseError "Failed to load database" (some e))
      else
        .ok (⟨filtered, db2.lastModified, db2.version⟩, fs1)

/-- Embedding of `initialize` (named `initService` here since the source
name is reserved in Lean): ensure the data directory (not modelled), load
the database, and wrap any failure as
`DatabaseError("Database initialization failed")`. -/
def initService (nowIso : String) (s : ServiceState) :
    ServiceState × Option JsError :=
  match loadDatabase nowIso s.fs with
  | .ok (db, fs1) => (⟨some db, fs1⟩, none)
  | .error e =>
    (s, some (.databaseError "Database initialization failed" (some e)))

/-- The complete record built by `addFoodItem` from a validated request:
a fresh id from the generator, the request fields, and `addedDate` =
`lastModified` = the current time. -/
def mkNewItem (freshId nowIso : String) (r : AddFoodItemRequest) : FoodItem :=
  { id := freshId
    name := r.name
    quantity := r.quantity
    unit := r.unit
    expirationDate := r.expirationDate
    category := r.category
    location := r.location
    notes := r.notes
    addedDate := nowIso
    lastModified := nowIso }

/-- Embedding of `addFoodItem`.  The source validates the request and the
complete item before touching state; its catch clause rethrows a
`ValidationError` unchanged but wraps every other error — including the
`ZodError` of a failed validation, the not-initialized `DatabaseError`
and a save failure — as `DatabaseError("Failed to add food item")` with
the original error as cause.  On a save failure the pushed item stays in
the in-memory collection. -/
def addFoodItem (nowIso freshId : String) (req : AddCandidate)
    (s : ServiceState) : ServiceState × Except JsError FoodItem :=
  match parseAddRequest req with
  | .error issues =>
    (s, .error (.databaseError "Failed to add food item"
      (some (.zodError issues))))
  | .ok vreq =>
    let newItem := mkNewItem freshId nowIso vreq
    if foodItemValid newItem then
      match s.database with
      | none =>
        (s, .error (.databaseError "Failed to add food item"
          (some (.databaseError "Database not initialized" none))))
      | some db =>
        let db1 := { db with items := db.items ++ [newItem] }
        match saveDatabase nowIso db1 s.fs with
        | (db2, fs1, some e) =>
          (⟨some db2, fs1⟩, .error (.databaseError "Failed to add food item"
            (some e)))
        | (db2, fs1, none) => (⟨some db2, fs1⟩, .ok newItem)
    else
      (s, .error (.databaseError "Failed to add food item"
        (some (.zodError (foodItemIssues newItem)))))

/-- JavaScript truthiness of an optional string parameter: absent and the
empty string are falsy. -/
def strTruthy : Option String → Bool
  | none => false
  | some v => !v.isEmpty

/-- ASCII lowercase of one character, the fragment of
`String.prototype.toLowerCase` exercised by the service (item names,
categories and locations in the verified properties are ASCII). -/
def lowerCh (c : Char) : Char :=
  if 'A' ≤ c && c ≤ 'Z' then Char.ofNat (c.toNat + 32) else c

/-- ASCII lowercase of a string. -/
def lowerStr (s : String) : String := String.mk (s.toList.map lowerCh)

/-- The `findIndex` predicate of `removeFoodItem`:
`(id && item.id === id) || (name && item.name.toLowerCase() ===
name.toLowerCase())`.  A truthy `name` can therefore match even when an
`id` was also supplied. -/
def removePred (idq nmq : Option String) (it : FoodItem) : Bool :=
  (match idq with
   | some i => !i.isEmpty && it.id == i
   | none => false) ||
  (match nmq with
   | some n => !n.isEmpty && lowerStr it.name == lowerStr n
   | none => false)

/-- Embedding of `Array.prototype.findIndex`: index of the first element
satisfying the predicate. -/
def findIndex (p : FoodItem → Bool) : List FoodItem → Option Nat
  | [] => none
  | x :: xs => if p x then some 0 else (findIndex p xs).map (· + 1)

/-- Embedding of `splice(i, 1)`: remove the element at the index. -/
def spliceOne : Nat → List FoodItem → List FoodItem
  | _, [] => []
  | 0, _ :: xs => xs
  | n + 1, x :: xs => x :: spliceOne n xs

/-- The not-found message of `removeFoodItem`, which names the `id`
whenever `id` is truthy and otherwise the `name`. -/
def removeNotFoundMsg (idq nmq : Option String) : String :=
  if strTruthy idq then
    "Food item not found with id: " ++ idq.getD ""
  else
    "Food item not found with name: " ++ nmq.getD ""

/-- Embedding of `removeFoodItem`: require a truthy selector, require an
initialized database, find the first item matching the combined
predicate, splice it out, persist and return it.  This method has no
try/catch, so a save failure propagates as the raw
`DatabaseError("Failed to save database")` with the item already
removed in memory. -/
def removeFoodItem (nowIso : String) (idq nmq : Option String)
    (s : ServiceState) : ServiceState × Except JsError FoodItem :=
  if !strTruthy idq && !strTruthy nmq then
    (s, .error (.validationError "Either id or name must be provided" []))
  else
    match s.database with
    | none => (s, .error (.databaseError "Database not initialized" none))
    | some db =>
      match findIndex (removePred idq nmq) db.items with
      | none => (s, .error (.notFoundError (removeNotFoundMsg idq nmq)))
      | some j =>
        match db.items[j]? with
        | none => (s, .error (.genericError "index out of range"))
        | some removed =>
          let db1 := { db with items := spliceOne j db.items }
          match saveDatabase nowIso db1 s.fs with
          | (db2, fs1, some e) => (⟨some db2, fs1⟩, .error e)
          | (db2, fs1, none) => (⟨some db2, fs1⟩, .ok removed)

/-- Case-insensitive-free substring test, embedding
`String.prototype.includes` on the already-lowercased operands. -/
def strIncludes (hay needle : String) : Bool :=
  hay.toList.tails.any (fun t => needle.toList.isPrefixOf t)

/-- Boolean lexicographic comparison of strings by code point, the
comparator shape of `a.name.localeCompare(b.name)` (collation modelled as
code-point order; the claims under verification do not depend on the
collation of the sort). -/
def strLeBool : List Char → List Char → Bool
  | [], _ => true
  | _ :: _, [] => false
  | a :: as, b :: bs =>
    if a.toNat < b.toNat then true
    else if b.toNat < a.toNat then false
    else strLeBool as bs

/-- A `listFoodItems` request (`ListFoodItemsRequest`). -/
structure ListFoodItemsRequest where
  category : Option String := none
  location : Option String := none
  expiringSoon : Option Bool := none
  expiringSoonDays : Option Int := none
deriving Repr, DecidableEq

/-- The effective expiring-soon threshold:
`request.expiringSoonDays || 7`, so an absent value — and, by JavaScript
falsiness, an explicit 0 — defaults to 7. -/
def effDays (dq : Option Int) : Int :=
  match dq with
  | none => 7
  | some d => if d = 0 then 7 else d

/-- The expiring-soon predicate of `listFoodItems`: the item must carry
an `expirationDate` that parses to a valid instant `t` with
`t ≤ now + days·86400000` and `now ≤ t`; a missing date or an invalid
parse (`NaN`, whose comparisons are false) excludes the item.  The
threshold `now + days` models `setDate(getDate() + days)` on a UTC
clock. -/
def expiringKeep (nowMs : Int) (days : Int) (it : FoodItem) : Bool :=
  match it.expirationDate with
  | none => false
  | some e =>
    match parseISO e with
    | none => false
    | some t => decide (t ≤ nowMs + days * 86400000) && decide (nowMs ≤ t)

/-- The category filter step of `listFoodItems`: active only for a truthy
requested category, keeping items whose own category is present and
contains the requested one case-insensitively. -/
def categoryFilter (cq : Option String) (items : List FoodItem) :
    List FoodItem :=
  match cq with
  | some c =>
    if c.isEmpty then items
    else items.filter (fun it => match it.category with
      | some ic => strIncludes (lowerStr ic) (lowerStr c)
      | none => false)
  | none => items

/-- The location filter step of `listFoodItems`, same shape as the
category filter. -/
def locationFilter (lq : Option String) (items : List FoodItem) :
    List FoodItem :=
  match lq with
  | some l =>
    if l.isEmpty then items
    else items.filter (fun it => match it.location with
      | some il => strIncludes (lowerStr il) (lowerStr l)
      | none => false)
  | none => items

/-- The expiring-soon filter step of `listFoodItems`, active when
`request.expiringSoon` is truthy. -/
def expiringFilter (nowMs : Int) (sq : Option Bool) (dq : Option Int)
    (items : List FoodItem) : List FoodItem :=
  match sq with
  | some true => items.filter (expiringKeep nowMs (effDays dq))
  | _ => items

/-- Embedding of `listFoodItems`: copy the collection, apply the three
filters in order, and sort by name. -/
def listFoodItems (nowMs : Int) (req : ListFoodItemsRequest)
    (s : ServiceState) : Except JsError (List FoodItem) :=
  match s.database with
  | none => .error (.databaseError "Database not initialized" none)
  | some db =>
    let items := categoryFilter req.category db.items
    let items := locationFilter req.location items
    let items := expiringFilter nowMs req.expiringSoon req.expiringSoonDays items
    .ok (items.mergeSort (fun a b => strLeBool a.name.toList b.name.toList))

/-- Embedding of `getFoodItemById`. -/
def getFoodItemById (id : String) (s : ServiceState) :
    Except JsError FoodItem :=
  match s.database with
  | none => .error (.databaseError "Database not initialized" none)
  | some db =>
    match db.items.find? (fun it => it.id == id) with
    | none => .error (.notFoundError ("Food item not found with id: " ++ id))
    | some it => .ok it

/-- Embedding of `updateFoodItem`: look up by id, merge with forced `id`
and `addedDate`, revalidate (a `ZodError` propagates raw — this method
has no try/catch — leaving the original record in place), store, persist
and return.  A save failure propagates with the in-memory record already
replaced. -/
def updateFoodItem (nowIso : String) (id : String) (u : UpdatePayload)
    (s : ServiceState) : ServiceState × Except JsError FoodItem :=
  match s.database with
  | none => (s, .error (.databaseError "Database not initialized" none))
  | some db =>
    match findIndex (fun it => it.id == id) db.items with
    | none => (s, .error (.notFoundError ("Food item not found with id: " ++ id)))
    | some j =>
      match db.items[j]? with
      | none => (s, .error (.genericError "index out of range"))
      | some existing =>
        let updated := mergeUpdate existing u nowIso
        if foodItemValid updated then
          let db1 := { db with items := db.items.set j updated }
          match saveDatabase nowIso db1 s.fs with
          | (db2, fs1, some e) => (⟨some db2, fs1⟩, .error e)
          | (db2, fs1, none) => (⟨some db2, fs1⟩, .ok updated)
        else
          (s, .error (.zodError (foodItemIssues updated)))

/-- The statistics record returned by `getStats`. -/
structure Stats where
  totalItems : Nat
  categories : List String
  locations : List String
  expiringCount : Nat
  lastModified : String
  version : Option String
deriving Repr, DecidableEq

/-- Deduplication keeping first occurrences, the order `[...new Set(a)]`
produces. -/
def dedupKeepFirst (l : List String) : List String :=
  l.foldl (fun acc x => if acc.contains x then acc else acc ++ [x]) []

/-- Embedding of `getStats`: item count, distinct truthy categories and
locations, the count of items expiring in the next 7 days (same window
as the expiring filter), and the envelope metadata. -/
def getStats (nowMs : Int) (s : ServiceState) : Except JsError Stats :=
  match s.database with
  | none => .error (.databaseError "Database not initialized" none)
  | some db =>
    .ok { totalItems := db.items.length
          categories := dedupKeepFirst
            (((db.items.filterMap (fun it => it.category)).filter
              (fun c => !c.isEmpty)))
          locations := dedupKeepFirst
            (((db.items.filterMap (fun it => it.location)).filter
              (fun l => !l.isEmpty)))
          expiringCount := (db.items.filter (expiringKeep nowMs 7)).length
          lastModified := db.lastModified
          version := db.version }

/-- Whether reading or parsing this file fails (a missing or corrupt
file), the condition under which `loadDatabase` falls through to the next
source. -/
def DiskFile.readFails : DiskFile → Bool
  | .stored _ => false
  | _ => true

/-- Discriminator: is this outcome a thrown `ValidationError`? -/
def errIsValidation : Except JsError FoodItem → Bool
  | .error (.validationError _ _) => true
  | _ => false

/-! Concrete fixtures used by witnesses and counterexamples. -/

/-- A well-formed UUID. -/
def uuidA : String := "11111111-1111-4111-a111-111111111111"

/-- A second well-formed UUID, distinct from `uuidA`. -/
def uuidB : String := "22222222-2222-4222-a222-222222222222"

/-- A third well-formed UUID, used as the generator's fresh id. -/
def uuidC : String := "33333333-3333-4333-a333-333333333333"

/-- A valid ISO-8601 instant. -/
def isoT0 : String := "2025-01-01T00:00:00Z"

/-- A fully valid stored item named milk. -/
def itemMilk : FoodItem :=
  { id := uuidA
    name := "milk"
    quantity := 1
    unit := "liter"
    expirationDate := none
    category := none
    location := none
    notes := none
    addedDate := isoT0
    lastModified := isoT0 }

/-- A fully valid stored item named eggs. -/
def itemEggs : FoodItem :=
  { itemMilk with id := uuidB, name := "eggs" }

/-- A filesystem with no files and working writes. -/
def fsEmpty : FS := ⟨.absent, .absent, false⟩

/-- An initialized service holding milk then eggs. -/
def sMilkEggs : ServiceState :=
  ⟨some ⟨[itemMilk, itemEggs], isoT0, some "1.0.0"⟩, fsEmpty⟩

/-- An initialized service with an empty collection. -/
def sEmptyDb : ServiceState :=
  ⟨some ⟨[], isoT0, some "1.0.0"⟩, fsEmpty⟩

/-- An item whose id is not a well-formed UUID, so it fails schema
validation on load. -/
def badMilk : FoodItem := { itemMilk with id := "nope" }

/-- An instant exactly 7 days after `isoT0`. -/
def iso7 : String := "2025-01-08T00:00:00Z"

/-- An instant exactly 8 days after `isoT0`. -/
def iso8 : String := "2025-01-09T00:00:00Z"

/-- A valid item expiring exactly 7 days after `isoT0`. -/
def itemExp7 : FoodItem :=
  { itemMilk with id := uuidB, name := "apple", expirationDate := some iso7 }

/-- A valid item expiring 8 days after `isoT0`. -/
def itemExp8 : FoodItem :=
  { itemMilk with id := uuidC, name := "bread", expirationDate := some iso8 }

/-- Epoch milliseconds of `isoT0`. -/
def expNowMs : Int := 1735689600000

/-- A database holding one dateless item and the two expiring items. -/
def dbExp : FridgeDatabase := ⟨[itemMilk, itemExp7, itemExp8], isoT0, some "1.0.0"⟩

/-- An initialized service over `dbExp`. -/
def sExpState : ServiceState := ⟨some dbExp, fsEmpty⟩

/-- A list request activating only the expiring-soon filter with the
default threshold. -/
def expReq : ListFoodItemsRequest := ⟨none, none, some true, none⟩

/-- A fully valid add request. -/
def reqValid : AddCandidate :=
  ⟨some "X", some 1, some "u", none, none, none, none⟩

/-- An invalid add request with quantity zero. -/
def reqQty0 : AddCandidate :=
  ⟨some "X", some 0, some "u", none, none, none, none⟩

/-- An update payload that renames the item and attempts to override the
protected `id` and `addedDate` fields. -/
def updOverride : UpdatePayload :=
  { name := some "skim milk", id := some uuidB, addedDate := some iso7 }

/-! Helper lemmas. -/

/-- Closed form of one raw save: the backup receives an existing primary,
the primary is atomically replaced on a successful write, and a failed
write reports a database error while leaving the primary intact. -/
theorem saveRawDb_eq (nowIso : String) (db : RawDatabase) (fs : FS) :
    saveRawDb nowIso db fs =
      ({ db with lastModified := nowIso },
       { primary := if fs.writeFails then fs.primary else
           .stored { db with lastModified := nowIso },
         backup := if fs.primary = .absent then fs.backup else fs.primary,
         writeFails := fs.writeFails },
       if fs.writeFails then
         some (.databaseError "Failed to save database" none) else none) := by
  rcases fs with ⟨p, b, w⟩
  cases p <;> cases w <;> simp [saveRawDb]

/-- Closed form of a save of the in-memory database. -/
theorem saveDatabase_eq (nowIso : String) (db : FridgeDatabase) (fs : FS) :
    saveDatabase nowIso db fs =
      ({ db with lastModified := nowIso },
       { primary := if fs.writeFails then fs.primary else
           .stored ⟨some db.items, nowIso, db.version⟩,
         backup := if fs.primary = .absent then fs.backup else fs.primary,
         writeFails := fs.writeFails },
       if fs.writeFails then
         some (.databaseError "Failed to save database" none) else none) := by
  simp [saveDatabase, saveRawDb_eq, FridgeDatabase.toRaw]

/-- A request with a non-empty issue list parses to exactly that issue
list. -/
theorem parseAddRequest_error (r : AddCandidate)
    (h : addRequestIssues r ≠ []) :
    parseAddRequest r = .error (addRequestIssues r) := by
  simp [parseAddRequest, h]

/-- The `findIndex` and `splice` pair agrees with first-match search and
first-match removal. -/
theorem findIndex_spec (p : FoodItem → Bool) (l : List FoodItem) :
    (findIndex p l = none → l.find? p = none) ∧
    (∀ j, findIndex p l = some j →
      l.find? p = l[j]? ∧ l.eraseP p = spliceOne j l ∧
      ∃ x, l[j]? = some x) := by
  induction l with
  | nil =>
    refine ⟨fun _ => rfl, fun j h => ?_⟩
    simp [findIndex] at h
  | cons x xs ih =>
    by_cases hx : p x
    · refine ⟨fun h => ?_, fun j h => ?_⟩
      · simp [findIndex, hx] at h
      · simp only [findIndex, hx, if_pos] at h
        cases h
        simp [List.find?_cons_of_pos _ hx, List.eraseP_cons_of_pos hx,
          spliceOne]
    · have hfi : findIndex p (x :: xs) = (findIndex p xs).map (· + 1) := by
        simp [findIndex, hx]
      refine ⟨fun h => ?_, fun j h => ?_⟩
      · rw [hfi] at h
        cases hfx : findIndex p xs with
        | none => simp [List.find?_cons_of_neg _ hx, ih.1 hfx]
        | some j0 => rw [hfx] at h; simp at h
      · rw [hfi] at h
        cases hfx : findIndex p xs with
        | none => rw [hfx] at h; simp at h
        | some j0 =>
          rw [hfx] at h
          simp at h
          subst h
          have hs := ih.2 j0 hfx
          obtain ⟨y, hy⟩ := hs.2.2
          refine ⟨?_, ?_, y, ?_⟩
          · simp [List.find?_cons_of_neg _ hx, hs.1]
          · simp [List.eraseP_cons_of_neg hx, spliceOne, hs.2.1]
          · simpa using hy

/-- The expiring-soon predicate holds exactly on items carrying an
expiration instant inside the window. -/
theorem expiringKeep_iff (nowMs days : Int) (it : FoodItem) :
    expiringKeep nowMs days it = true ↔
      ∃ e t, it.expirationDate = some e ∧ parseISO e = some t ∧
        nowMs ≤ t ∧ t ≤ nowMs + days * 86400000 := by
  unfold expiringKeep
  cases hE : it.expirationDate with
  | none => simp
  | some e =>
    cases hT : parseISO e with
    | none => simp [hT]
    | some t =>
      simp only [hT, Bool.and_eq_true, decide_eq_true_eq]
      constructor
      · rintro ⟨h1, h2⟩
        exact ⟨e, t, rfl, hT, h2, h1⟩
      · rintro ⟨e2, t2, he2, ht2, h2, h1⟩
        cases he2
        rw [hT] at ht2
        cases ht2
        exact ⟨h1, h2⟩

/-! Claim theorems. -/

/-- C1.  The claim states that `addFoodItem` fails with a validation
error listing every violated field constraint.  On the code, the
`ZodError` raised by `AddFoodItemRequestSchema.parse` is not an instance
of the service's `ValidationError` class, so the catch clause of
`addFoodItem` rethrows it wrapped as
`DatabaseError("Failed to add food item")`: the surfaced error is a
database error, not a validation error, although its cause does carry the
complete issue list (both violations for a request with an empty name and
a zero quantity).  This contradicts the claim (and the dead
`instanceof ValidationError` guard shows the intent), hence a code bug
evaluated here at the claim's failing inputs. -/
theorem C1_addFoodItem_wraps_validation_as_database_error :
    (addFoodItem isoT0 uuidC
        { name := some "X", quantity := some 0, unit := some "u" }
        sEmptyDb).2 =
      .error (.databaseError "Failed to add food item"
        (some (.zodError [⟨"quantity", "Quantity must be positive"⟩]))) ∧
    (addFoodItem isoT0 uuidC
        { name := some "", quantity := some 0, unit := some "u" }
        sEmptyDb).2 =
      .error (.databaseError "Failed to add food item"
        (some (.zodError [⟨"name", "Name is required"⟩,
                          ⟨"quantity", "Quantity must be positive"⟩]))) ∧
    errIsValidation
      (addFoodItem isoT0 uuidC
        { name := some "X", quantity := some 0, unit := some "u" }
        sEmptyDb).2 = false := by
  refine ⟨rfl, rfl, rfl⟩

/-- C2 counterexample.  A primary file that parses but whose `items`
field is not an array makes `initialize` fail with a wrapped
`DatabaseError` instead of degrading to an empty envelope, refuting the
claim that `initialize` does not fail in this case. -/
theorem C2_counterexample :
    (initService isoT0
        ⟨none, ⟨.stored ⟨none, isoT0, some "1.0.0"⟩, .absent, false⟩⟩).2 =
      some (.databaseError "Database initialization failed"
        (some (.databaseError "Failed to load database"
          (some (.genericError "Invalid database structure"))))) ∧
    ((initService isoT0
        ⟨none, ⟨.stored ⟨none, isoT0, some "1.0.0"⟩, .absent, false⟩⟩).2).isSome
      = true := by
  refine ⟨rfl, rfl⟩

/-- C3 counterexample.  With a corrupt-but-present primary and a good
backup, the backup-fallback load succeeds and its repair-on-read save
restores the primary — but that save first copies the still-corrupt
primary over the backup, so after the save the backup holds the corrupt
contents rather than the last-known-good primary contents (which are what
the save just wrote to the primary). -/
theorem C3_counterexample :
    (initService isoT0
        ⟨none, ⟨.corrupt "garbage",
                .stored ⟨some [itemMilk], isoT0, some "1.0.0"⟩, false⟩⟩).2 =
      none ∧
    (initService isoT0
        ⟨none, ⟨.corrupt "garbage",
                .stored ⟨some [itemMilk], isoT0, some "1.0.0"⟩, false⟩⟩).1.fs.backup =
      .corrupt "garbage" ∧
    (initService isoT0
        ⟨none, ⟨.corrupt "garbage",
                .stored ⟨some [itemMilk], isoT0, some "1.0.0"⟩, false⟩⟩).1.fs.primary =
      .stored ⟨some [itemMilk], isoT0, some "1.0.0"⟩ := by
  refine ⟨rfl, rfl, rfl⟩

/-- C4 counterexample.  With both selectors supplied, `id` of the eggs
item and `name` matching the earlier milk item case-insensitively, the
combined `findIndex` predicate removes the milk item — whose id differs
from the supplied id — so lookup does not match by id when both selectors
are given. -/
theorem C4_counterexample :
    (removeFoodItem isoT0 (some uuidB) (some "MILK") sMilkEggs).2 =
      .ok itemMilk ∧
    (itemMilk.id == uuidB) = false ∧
    (removeFoodItem isoT0 (some uuidB) (some "MILK") sMilkEggs).1.database =
      some ⟨[itemEggs], isoT0, some "1.0.0"⟩ := by
  refine ⟨rfl, rfl, rfl⟩

/-- C10 counterexample.  Calling `addFoodItem` with a valid request
before `initialize` does throw a `DatabaseError`, but its message is
`Failed to add food item` (the not-initialized error is only its cause),
not the `Database not initialized` the claim states for every
operation. -/
theorem C10_counterexample :
    (addFoodItem isoT0 uuidC
        { name := some "X", quantity := some 1, unit := some "u" }
        ⟨none, fsEmpty⟩).2 =
      .error (.databaseError "Failed to add food item"
        (some (.databaseError "Database not initialized" none))) ∧
    ("Failed to add food item" == "Database not initialized") = false := by
  refine ⟨rfl, rfl⟩

/-- With an unreadable or unparseable primary and backup, and working
writes, the load path creates, persists and adopts a fresh empty
envelope. -/
theorem loadDatabase_fresh (nowIso : String) (fs : FS)
    (hp : fs.primary.readFails = true) (hb : fs.backup.readFails = true)
    (hw : fs.writeFails = false) :
    loadDatabase nowIso fs =
      .ok (⟨[], nowIso, some "1.0.0"⟩,
           ⟨.stored ⟨some [], nowIso, some "1.0.0"⟩,
            if fs.primary = .absent then fs.backup else fs.primary,
            false⟩) := by
  rcases fs with ⟨p, b, w⟩
  have hw2 : w = false := hw
  subst hw2
  cases p with
  | stored raw => simp [DiskFile.readFails] at hp
  | absent =>
    cases b with
    | stored raw => simp [DiskFile.readFails] at hb
    | absent =>
      simp [loadDatabase, saveRawDb_eq, createEmptyDatabase, versionFalsy]
      rfl
    | corrupt c =>
      simp [loadDatabase, saveRawDb_eq, createEmptyDatabase, versionFalsy]
      rfl
  | corrupt c =>
    cases b with
    | stored raw => simp [DiskFile.readFails] at hb
    | absent =>
      simp [loadDatabase, saveRawDb_eq, createEmptyDatabase, versionFalsy]
      rfl
    | corrupt c2 =>
      simp [loadDatabase, saveRawDb_eq, createEmptyDatabase, versionFalsy]
      rfl

/-- C2, amended.  Initializing a store whose primary file cannot be read
or parsed as JSON, when the backup cannot be read or parsed either,
succeeds with an empty working envelope, and a subsequent
`listFoodItems` with no filters returns zero items without throwing.
However, when the primary parses to a structure whose `items` field is
not a proper sequence, `initialize` does fail, with a
`DatabaseError("Database initialization failed")` wrapping the load
error — the code does not treat this case like the both-failed case. -/
theorem C2_init_empty_on_unreadable (nowIso : String) (fs : FS)
    (hw : fs.writeFails = false) :
    (fs.primary.readFails = true → fs.backup.readFails = true →
      (initService nowIso ⟨none, fs⟩).2 = none ∧
      (initService nowIso ⟨none, fs⟩).1.database =
        some ⟨[], nowIso, some "1.0.0"⟩ ∧
      (∀ nowMs : Int,
        listFoodItems nowMs {} (initService nowIso ⟨none, fs⟩).1 = .ok [])) ∧
    (∀ raw, fs.primary = .stored raw → raw.rawItems = none →
      (initService nowIso ⟨none, fs⟩).2 =
        some (.databaseError "Database initialization failed"
          (some (.databaseError "Failed to load database"
            (some (.genericError "Invalid database structure")))))) := by
  constructor
  · intro hp hb
    have hl := loadDatabase_fresh nowIso fs hp hb hw
    refine ⟨by simp [initService, hl], by simp [initService, hl], ?_⟩
    intro nowMs
    simp [initService, hl, listFoodItems, categoryFilter, locationFilter,
      expiringFilter]
  · intro raw hp hraw
    rcases fs with ⟨p, b, w⟩
    cases hp
    simp [initService, loadDatabase, hraw]

/-- C2 witness: a corrupt primary with no backup yields a successful,
empty initialization. -/
theorem C2_witness :
    (initService isoT0 ⟨none, ⟨.corrupt "junk", .absent, false⟩⟩).2 = none :=
  ((C2_init_empty_on_unreadable isoT0 ⟨.corrupt "junk", .absent, false⟩
    rfl).1 rfl rfl).1

/-- C3, amended.  Before every durable write, an existing primary file —
whatever its contents, parseable or corrupt — is copied over the backup,
so after a save the backup holds the immediately-prior primary contents;
on a successful write the primary then holds the freshly serialized
envelope.  The prior primary contents are the last-known-good contents
only when the prior primary was itself good: after a backup-fallback load
caused by a corrupt-but-present primary, this same copy step overwrites
the backup with the corrupt contents (see the counterexample). -/
theorem C3_backup_gets_prior_primary (nowIso : String) (db : FridgeDatabase)
    (fs : FS) :
    (saveDatabase nowIso db fs).2.1.backup =
      (if fs.primary = .absent then fs.backup else fs.primary) ∧
    (fs.writeFails = false →
      (saveDatabase nowIso db fs).2.1.primary =
        .stored ⟨some db.items, nowIso, db.version⟩ ∧
      (saveDatabase nowIso db fs).2.2 = none) := by
  refine ⟨by simp [saveDatabase_eq], fun hw => ?_⟩
  constructor
  · simp [saveDatabase_eq, hw]
  · simp [saveDatabase_eq, hw]

/-- C3 witness: saving over an existing primary copies it to the backup
and replaces the primary. -/
theorem C3_witness :
    (saveDatabase isoT0 ⟨[], isoT0, some "1.0.0"⟩
        ⟨.stored ⟨some [itemMilk], isoT0, some "1.0.0"⟩, .absent,
         false⟩).2.1.backup =
      .stored ⟨some [itemMilk], isoT0, some "1.0.0"⟩ := by
  have h := (C3_backup_gets_prior_primary isoT0 ⟨[], isoT0, some "1.0.0"⟩
    ⟨.stored ⟨some [itemMilk], isoT0, some "1.0.0"⟩, .absent, false⟩).1
  simpa using h

/-- C8.  An add request that fails validation leaves the service state —
the in-memory collection and both files on disk — completely unchanged,
and surfaces the (wrapped) validation failure; no write occurs. -/
theorem C8_invalid_add_leaves_state_unchanged (nowIso freshId : String)
    (req : AddCandidate) (s : ServiceState)
    (h : addRequestIssues req = [] → False) :
    addFoodItem nowIso freshId req s =
      (s, .error (.databaseError "Failed to add food item"
        (some (.zodError (addRequestIssues req))))) := by
  simp [addFoodItem, parseAddRequest_error req h]

/-- C8 witness: a zero-quantity request changes nothing. -/
theorem C8_witness :
    addFoodItem isoT0 uuidC reqQty0 sMilkEggs =
      (sMilkEggs, .error (.databaseError "Failed to add food item"
        (some (.zodError (addRequestIssues reqQty0))))) :=
  C8_invalid_add_leaves_state_unchanged isoT0 uuidC reqQty0 sMilkEggs
    (by decide)

/-- C10, amended.  Every store operation called before `initialize`
throws a `DatabaseError` and leaves the state unchanged;
`removeFoodItem`, `listFoodItems`, `getFoodItemById`, `updateFoodItem`
and `getStats` throw it directly with message
`Database not initialized`, while `addFoodItem` (whose catch clause wraps
every non-validation error) surfaces it as
`DatabaseError("Failed to add food item")` with the not-initialized error
as its cause. -/
theorem C10_uninitialized_operations (nowIso freshId idv : String)
    (req : AddCandidate) (vreq : AddFoodItemRequest)
    (hp : parseAddRequest req = .ok vreq)
    (hv : foodItemValid (mkNewItem freshId nowIso vreq) = true)
    (idq nmq : Option String)
    (hsel : (!strTruthy idq && !strTruthy nmq) = false)
    (u : UpdatePayload) (lreq : ListFoodItemsRequest) (nowMs : Int)
    (s : ServiceState) (hdb : s.database = none) :
    addFoodItem nowIso freshId req s =
      (s, .error (.databaseError "Failed to add food item"
        (some (.databaseError "Database not initialized" none)))) ∧
    removeFoodItem nowIso idq nmq s =
      (s, .error (.databaseError "Database not initialized" none)) ∧
    listFoodItems nowMs lreq s =
      .error (.databaseError "Database not initialized" none) ∧
    getFoodItemById idv s =
      .error (.databaseError "Database not initialized" none) ∧
    updateFoodItem nowIso idv u s =
      (s, .error (.databaseError "Database not initialized" none)) ∧
    getStats nowMs s =
      .error (.databaseError "Database not initialized" none) := by
  refine ⟨?_, ?_, ?_, ?_, ?_, ?_⟩
  · simp [addFoodItem, hp, hv, hdb]
  · simp [removeFoodItem, hsel, hdb]
  · simp [listFoodItems, hdb]
  · simp [getFoodItemById, hdb]
  · simp [updateFoodItem, hdb]
  · simp [getStats, hdb]

/-- C10 witness: `removeFoodItem` with an id selector on an uninitialized
service throws the direct not-initialized database error. -/
theorem C10_witness :
    removeFoodItem isoT0 (some uuidA) none ⟨none, fsEmpty⟩ =
      (⟨none, fsEmpty⟩,
       .error (.databaseError "Database not initialized" none)) :=
  (C10_uninitialized_operations isoT0 uuidC uuidA reqValid
    ⟨"X", 1, "u", none, none, none, none⟩ rfl rfl
    (some uuidA) none rfl {} {} 0 ⟨none, fsEmpty⟩ rfl).2.1

/-- C4, amended.  The lookup of `removeFoodItem` does not give the id
precedence: the removed record is the first item in collection order
matching the combined predicate — exact id match when a truthy id is
supplied, or case-insensitive exact name match when a truthy name is
supplied — so a later id match loses to an earlier name match (see the
counterexample).  On a match the single first matching item is removed
and returned; on no match a `NotFoundError` naming the id (whenever a
truthy id was supplied) is thrown with the state unchanged. -/
theorem C4_remove_first_combined_match (nowIso : String)
    (idq nmq : Option String) (s : ServiceState) (db : FridgeDatabase)
    (hdb : s.database = some db) (hid : strTruthy idq = true)
    (hw : s.fs.writeFails = false) :
    (∀ it, db.items.find? (removePred idq nmq) = some it →
      (removeFoodItem nowIso idq nmq s).2 = .ok it ∧
      (removeFoodItem nowIso idq nmq s).1.database =
        some ⟨db.items.eraseP (removePred idq nmq), nowIso, db.version⟩) ∧
    (db.items.find? (removePred idq nmq) = none →
      removeFoodItem nowIso idq nmq s =
        (s, .error (.notFoundError
          ("Food item not found with id: " ++ idq.getD "")))) := by
  have hsel : (!strTruthy idq && !strTruthy nmq) = false := by
    simp [hid]
  constructor
  · intro it hit
    cases hfi : findIndex (removePred idq nmq) db.items with
    | none =>
      rw [(findIndex_spec _ _).1 hfi] at hit
      cases hit
    | some j =>
      have hs := (findIndex_spec (removePred idq nmq) db.items).2 j hfi
      have hget : db.items[j]? = some it := by rw [← hs.1, hit]
      have herase : spliceOne j db.items =
          db.items.eraseP (removePred idq nmq) := (hs.2.1).symm
      constructor
      · simp [removeFoodItem, hsel, hdb, hfi, hget, saveDatabase_eq, hw]
      · simp [removeFoodItem, hsel, hdb, hfi, hget, saveDatabase_eq, hw,
          herase]
  · intro hnone
    cases hfi : findIndex (removePred idq nmq) db.items with
    | some j =>
      have hs := (findIndex_spec (removePred idq nmq) db.items).2 j hfi
      obtain ⟨x, hx⟩ := hs.2.2
      rw [hnone, hx] at hs
      cases hs.1
    | none =>
      simp [removeFoodItem, hsel, hdb, hfi, removeNotFoundMsg, hid]

/-- C4 witness: removal by id alone finds and removes the id-matched
item. -/
theorem C4_witness :
    (removeFoodItem isoT0 (some uuidB) none sMilkEggs).2 = .ok itemEggs :=
  ((C4_remove_first_combined_match isoT0 (some uuidB) none sMilkEggs
    ⟨[itemMilk, itemEggs], isoT0, some "1.0.0"⟩ rfl rfl rfl).1 itemEggs
    rfl).1

/-- C5.  For every stored item and every update payload — including
payloads attempting to override the protected fields — the merged record
keeps the existing record's `id` and `addedDate` and takes the current
time as `lastModified`; when the merged record passes schema validation
it is returned and stored at the item's position, and when it fails
validation the operation throws the validation issues with the service
state (including the original record) completely unchanged. -/
theorem C5_update_preserves_identity (nowIso idv : String)
    (u : UpdatePayload) (s : ServiceState) (db : FridgeDatabase)
    (hdb : s.database = some db) (j : Nat) (ex : FoodItem)
    (hj : findIndex (fun it => it.id == idv) db.items = some j)
    (hex : db.items[j]? = some ex) :
    (mergeUpdate ex u nowIso).id = ex.id ∧
    (mergeUpdate ex u nowIso).addedDate = ex.addedDate ∧
    (mergeUpdate ex u nowIso).lastModified = nowIso ∧
    (foodItemValid (mergeUpdate ex u nowIso) = true →
     s.fs.writeFails = false →
      (updateFoodItem nowIso idv u s).2 = .ok (mergeUpdate ex u nowIso) ∧
      (updateFoodItem nowIso idv u s).1.database =
        some ⟨db.items.set j (mergeUpdate ex u nowIso), nowIso,
              db.version⟩) ∧
    (foodItemValid (mergeUpdate ex u nowIso) = false →
      updateFoodItem nowIso idv u s =
        (s, .error (.zodError (foodItemIssues (mergeUpdate ex u nowIso))))) := by
  refine ⟨rfl, rfl, rfl, ?_, ?_⟩
  · intro hv hw
    constructor
    · simp [updateFoodItem, hdb, hj, hex, hv, saveDatabase_eq, hw]
    · simp [updateFoodItem, hdb, hj, hex, hv, saveDatabase_eq, hw]
  · intro hv
    simp [updateFoodItem, hdb, hj, hex, hv]

/-- C5 witness: renaming the milk item while trying to override `id` and
`addedDate` yields a record keeping the original identity fields. -/
theorem C5_witness :
    (updateFoodItem isoT0 uuidA updOverride sMilkEggs).2 =
      .ok (mergeUpdate itemMilk updOverride isoT0) ∧
    (mergeUpdate itemMilk updOverride isoT0).id = itemMilk.id ∧
    (mergeUpdate itemMilk updOverride isoT0).addedDate = itemMilk.addedDate := by
  have h := C5_update_preserves_identity isoT0 uuidA updOverride sMilkEggs
    ⟨[itemMilk, itemEggs], isoT0, some "1.0.0"⟩ rfl 0 itemMilk rfl rfl
  exact ⟨(h.2.2.2.1 rfl rfl).1, h.1, h.2.1⟩

theorem exceptOkPair {x y : FridgeDatabase × FS}
    (h : (Except.ok x : Except JsError (FridgeDatabase × FS)) =
      Except.ok y) : x = y := by
  injection h

/-- C6.  Whenever a load succeeds, every item of the adopted in-memory
collection passes full `FoodItemSchema` validation, and when the load
came from a parsed primary file the collection is exactly the persisted
sequence with the invalid records dropped (not repaired) — so one corrupt
record never prevents the store from starting with the remaining valid
items. -/
theorem C6_load_keeps_exactly_valid_items (nowIso : String) (fs : FS)
    (db : FridgeDatabase) (fs1 : FS)
    (h : loadDatabase nowIso fs = .ok (db, fs1)) :
    (∀ it ∈ db.items, foodItemValid it = true) ∧
    (∀ raw l, fs.primary = .stored raw → raw.rawItems = some l →
      db.items = l.filter foodItemValid) := by
  have key : ∃ l0, db.items = l0.filter foodItemValid ∧
      (∀ raw l, fs.primary = .stored raw → raw.rawItems = some l →
        l0 = l) := by
    rcases fs with ⟨p, b, w⟩
    cases p with
    | stored raw0 =>
      cases hri : raw0.rawItems with
      | none => simp [loadDatabase, hri] at h
      | some l0 =>
        have hsrc : ∀ raw l,
            (DiskFile.stored raw0 : DiskFile) = .stored raw →
            raw.rawItems = some l → l0 = l := by
          intro raw l hp hl
          cases hp
          rw [hri] at hl
          cases hl
          rfl
        cases hv : versionFalsy raw0.version with
        | false =>
          have hcomp : ∃ fsX lm v, loadDatabase nowIso
              ⟨.stored raw0, b, w⟩ =
              .ok (⟨l0.filter foodItemValid, lm, v⟩, fsX) :=
            ⟨_, _, _, by simp [loadDatabase, hri, hv] <;> and_intros <;> rfl⟩
          obtain ⟨fsX, lm, v, hcomp⟩ := hcomp
          have hinj := exceptOkPair (hcomp.symm.trans h)
          refine ⟨l0, ?_, hsrc⟩
          have hit := congrArg (fun z => z.1.items) hinj
          simpa using hit.symm
        | true =>
          cases w with
          | true => simp [loadDatabase, hri, hv, saveRawDb_eq] at h
          | false =>
            have hcomp : ∃ fsX lm v, loadDatabase nowIso
                ⟨.stored raw0, b, false⟩ =
                .ok (⟨l0.filter foodItemValid, lm, v⟩, fsX) :=
              ⟨_, _, _, by simp [loadDatabase, hri, hv, saveRawDb_eq] <;> and_intros <;> rfl⟩
            obtain ⟨fsX, lm, v, hcomp⟩ := hcomp
            have hinj := exceptOkPair (hcomp.symm.trans h)
            refine ⟨l0, ?_, hsrc⟩
            have hit := congrArg (fun z => z.1.items) hinj
            simpa using hit.symm
    | absent =>
      cases b with
      | stored raw0 =>
        cases w with
        | true => simp [loadDatabase, saveRawDb_eq] at h
        | false =>
          cases hri : raw0.rawItems with
          | none => simp [loadDatabase, saveRawDb_eq, hri] at h
          | some l0 =>
            cases hv : versionFalsy raw0.version with
            | false =>
              have hcomp : ∃ fsX lm v, loadDatabase nowIso
                  ⟨.absent, .stored raw0, false⟩ =
                  .ok (⟨l0.filter foodItemValid, lm, v⟩, fsX) :=
                ⟨_, _, _, by simp [loadDatabase, saveRawDb_eq, hri, hv] <;> and_intros <;> rfl⟩
              obtain ⟨fsX, lm, v, hcomp⟩ := hcomp
              have hinj := exceptOkPair (hcomp.symm.trans h)
              refine ⟨l0, ?_, by intro raw l hp hl; cases hp⟩
              have hit := congrArg (fun z => z.1.items) hinj
              simpa using hit.symm
            | true =>
              have hcomp : ∃ fsX lm v, loadDatabase nowIso
                  ⟨.absent, .stored raw0, false⟩ =
                  .ok (⟨l0.filter foodItemValid, lm, v⟩, fsX) :=
                ⟨_, _, _, by simp [loadDatabase, saveRawDb_eq, hri, hv] <;> and_intros <;> rfl⟩
              obtain ⟨fsX, lm, v, hcomp⟩ := hcomp
              have hinj := exceptOkPair (hcomp.symm.trans h)
              refine ⟨l0, ?_, by intro raw l hp hl; cases hp⟩
              have hit := congrArg (fun z => z.1.items) hinj
              simpa using hit.symm
      | absent =>
        cases w with
        | true => simp [loadDatabase, saveRawDb_eq] at h
        | false =>
          have hcomp : ∃ fsX lm v, loadDatabase nowIso
              ⟨.absent, .absent, false⟩ =
              .ok (⟨List.filter foodItemValid [], lm, v⟩, fsX) :=
            ⟨_, _, _, by
              simp [loadDatabase, saveRawDb_eq, createEmptyDatabase,
                versionFalsy] <;> rfl⟩
          obtain ⟨fsX, lm, v, hcomp⟩ := hcomp
          have hinj := exceptOkPair (hcomp.symm.trans h)
          refine ⟨[], ?_, by intro raw l hp hl; cases hp⟩
          have hit := congrArg (fun z => z.1.items) hinj
          simpa using hit.symm
      | corrupt c =>
        cases w with
        | true => simp [loadDatabase, saveRawDb_eq] at h
        | false =>
          have hcomp : ∃ fsX lm v, loadDatabase nowIso
              ⟨.absent, .corrupt c, false⟩ =
              .ok (⟨List.filter foodItemValid [], lm, v⟩, fsX) :=
            ⟨_, _, _, by
              simp [loadDatabase, saveRawDb_eq, createEmptyDatabase,
                versionFalsy] <;> rfl⟩
          obtain ⟨fsX, lm, v, hcomp⟩ := hcomp
          have hinj := exceptOkPair (hcomp.symm.trans h)
          refine ⟨[], ?_, by intro raw l hp hl; cases hp⟩
          have hit := congrArg (fun z => z.1.items) hinj
          simpa using hit.symm
    | corrupt c0 =>
      cases b with
      | stored raw0 =>
        cases w with
        | true => simp [loadDatabase, saveRawDb_eq] at h
        | false =>
          cases hri : raw0.rawItems with
          | none => simp [loadDatabase, saveRawDb_eq, hri] at h
          | some l0 =>
            cases hv : versionFalsy raw0.version with
            | false =>
              have hcomp : ∃ fsX lm v, loadDatabase nowIso
                  ⟨.corrupt c0, .stored raw0, false⟩ =
                  .ok (⟨l0.filter foodItemValid, lm, v⟩, fsX) :=
                ⟨_, _, _, by simp [loadDatabase, saveRawDb_eq, hri, hv] <;> and_intros <;> rfl⟩
              obtain ⟨fsX, lm, v, hcomp⟩ := hcomp
              have hinj := exceptOkPair (hcomp.symm.trans h)
              refine ⟨l0, ?_, by intro raw l hp hl; cases hp⟩
              have hit := congrArg (fun z => z.1.items) hinj
              simpa using hit.symm
            | true =>
              have hcomp : ∃ fsX lm v, loadDatabase nowIso
                  ⟨.corrupt c0, .stored raw0, false⟩ =
                  .ok (⟨l0.filter foodItemValid, lm, v⟩, fsX) :=
                ⟨_, _, _, by simp [loadDatabase, saveRawDb_eq, hri, hv] <;> and_intros <;> rfl⟩
              obtain ⟨fsX, lm, v, hcomp⟩ := hcomp
              have hinj := exceptOkPair (hcomp.symm.trans h)
              refine ⟨l0, ?_, by intro raw l hp hl; cases hp⟩
              have hit := congrArg (fun z => z.1.items) hinj
              simpa using hit.symm
      | absent =>
        cases w with
        | true => simp [loadDatabase, saveRawDb_eq] at h
        | false =>
          have hcomp : ∃ fsX lm v, loadDatabase nowIso
              ⟨.corrupt c0, .absent, false⟩ =
              .ok (⟨List.filter foodItemValid [], lm, v⟩, fsX) :=
            ⟨_, _, _, by
              simp [loadDatabase, saveRawDb_eq, createEmptyDatabase,
                versionFalsy] <;> rfl⟩
          obtain ⟨fsX, lm, v, hcomp⟩ := hcomp
          have hinj := exceptOkPair (hcomp.symm.trans h)
          refine ⟨[], ?_, by intro raw l hp hl; cases hp⟩
          have hit := congrArg (fun z => z.1.items) hinj
          simpa using hit.symm
      | corrupt c =>
        cases w with
        | true => simp [loadDatabase, saveRawDb_eq] at h
        | false =>
          have hcomp : ∃ fsX lm v, loadDatabase nowIso
              ⟨.corrupt c0, .corrupt c, false⟩ =
              .ok (⟨List.filter foodItemValid [], lm, v⟩, fsX) :=
            ⟨_, _, _, by
              simp [loadDatabase, saveRawDb_eq, createEmptyDatabase,
                versionFalsy] <;> rfl⟩
          obtain ⟨fsX, lm, v, hcomp⟩ := hcomp
          have hinj := exceptOkPair (hcomp.symm.trans h)
          refine ⟨[], ?_, by intro raw l hp hl; cases hp⟩
          have hit := congrArg (fun z => z.1.items) hinj
          simpa using hit.symm
  obtain ⟨l0, hitems, hsrc⟩ := key
  constructor
  · intro it hit
    rw [hitems] at hit
    exact List.of_mem_filter hit
  · intro raw l hp hl
    rw [hitems, hsrc raw l hp hl]

/-- C6 witness: loading a primary holding one valid and one invalid item
adopts exactly the valid one. -/
theorem C6_witness :
    ([itemMilk] : List FoodItem) =
      [itemMilk, badMilk].filter foodItemValid :=
  (C6_load_keeps_exactly_valid_items isoT0
    ⟨.stored ⟨some [itemMilk, badMilk], isoT0, some "1.0.0"⟩, .absent, false⟩
    ⟨[itemMilk], isoT0, some "1.0.0"⟩
    ⟨.stored ⟨some [itemMilk, badMilk], isoT0, some "1.0.0"⟩, .absent, false⟩
    rfl).2 ⟨some [itemMilk, badMilk], isoT0, some "1.0.0"⟩
    [itemMilk, badMilk] rfl rfl

/-- C7.  With the expiring-soon filter active (and no category or
location filter), `listFoodItems` returns exactly the stored items whose
`expirationDate` is present and parses to an instant `t` with
`now ≤ t ≤ now + d` days, where `d` is the requested threshold and
defaults to 7 when unspecified: the boundary instant `now + d` days is
included, anything later — and every item with no expiration date — is
excluded. -/
theorem C7_expiring_window (nowMs : Int) (req : ListFoodItemsRequest)
    (s : ServiceState) (db : FridgeDatabase) (hdb : s.database = some db)
    (hcat : req.category = none) (hloc : req.location = none)
    (hexp : req.expiringSoon = some true) :
    listFoodItems nowMs req s =
      .ok ((db.items.filter
        (expiringKeep nowMs (effDays req.expiringSoonDays))).mergeSort
          (fun a b => strLeBool a.name.toList b.name.toList)) ∧
    (req.expiringSoonDays = none → effDays req.expiringSoonDays = 7) ∧
    ∀ it, it ∈ ((db.items.filter
        (expiringKeep nowMs (effDays req.expiringSoonDays))).mergeSort
          (fun a b => strLeBool a.name.toList b.name.toList)) ↔
      it ∈ db.items ∧
      ∃ e t, it.expirationDate = some e ∧ parseISO e = some t ∧
        nowMs ≤ t ∧ t ≤ nowMs + effDays req.expiringSoonDays * 86400000 := by
  refine ⟨?_, fun h => by rw [h]; rfl, ?_⟩
  · simp [listFoodItems, hdb, categoryFilter, hcat, locationFilter, hloc,
      expiringFilter, hexp]
  · intro it
    rw [List.mem_mergeSort, List.mem_filter]
    exact and_congr_right (fun _ => expiringKeep_iff nowMs _ it)

/-- C7 witness: over a collection holding a dateless item, an item
expiring exactly 7 days out and one expiring 8 days out, the default
expiring filter returns exactly the 7-day item. -/
theorem C7_witness :
    listFoodItems expNowMs expReq sExpState =
      .ok ((dbExp.items.filter (expiringKeep expNowMs 7)).mergeSort
        (fun a b => strLeBool a.name.toList b.name.toList)) ∧
    (dbExp.items.filter (expiringKeep expNowMs 7)) = [itemExp7] ∧
    parseISO iso7 = some (expNowMs + 7 * 86400000) := by
  have h := C7_expiring_window expNowMs expReq sExpState dbExp rfl rfl rfl rfl
  exact ⟨h.1, rfl, rfl⟩

/-- C9.  When the durable write fails during `addFoodItem` (after
successful validation), the caller receives a `DatabaseError`, yet the
in-memory collection retains the appended item — no rollback — so a later
successful save writes a primary file containing it. -/
theorem C9_save_failure_retains_mutation (nowIso freshId : String)
    (req : AddCandidate) (vreq : AddFoodItemRequest) (s : ServiceState)
    (db : FridgeDatabase) (hdb : s.database = some db)
    (hp : parseAddRequest req = .ok vreq)
    (hv : foodItemValid (mkNewItem freshId nowIso vreq) = true)
    (hw : s.fs.writeFails = true) :
    (addFoodItem nowIso freshId req s).2 =
      .error (.databaseError "Failed to add food item"
        (some (.databaseError "Failed to save database" none))) ∧
    (addFoodItem nowIso freshId req s).1.database =
      some ⟨db.items ++ [mkNewItem freshId nowIso vreq], nowIso,
            db.version⟩ ∧
    (∀ nowIso2 : String, ∀ fs2 : FS, fs2.writeFails = false →
      (saveDatabase nowIso2
          ⟨db.items ++ [mkNewItem freshId nowIso vreq], nowIso, db.version⟩
          fs2).2.1.primary =
        .stored ⟨some (db.items ++ [mkNewItem freshId nowIso vreq]),
                 nowIso2, db.version⟩ ∧
      mkNewItem freshId nowIso vreq ∈
        db.items ++ [mkNewItem freshId nowIso vreq]) := by
  refine ⟨?_, ?_, ?_⟩
  · simp [addFoodItem, hp, hv, hdb, saveDatabase_eq, hw]
  · simp [addFoodItem, hp, hv, hdb, saveDatabase_eq, hw]
  · intro nowIso2 fs2 hw2
    exact ⟨by simp [saveDatabase_eq, hw2], by simp⟩

/-- C9 witness: a failed write surfaces the wrapped save error while the
new item stays in memory. -/
theorem C9_witness :
    (addFoodItem isoT0 uuidC reqValid
        ⟨some ⟨[itemMilk], isoT0, some "1.0.0"⟩,
         ⟨.absent, .absent, true⟩⟩).2 =
      .error (.databaseError "Failed to add food item"
        (some (.databaseError "Failed to save database" none))) :=
  (C9_save_failure_retains_mutation isoT0 uuidC reqValid
    ⟨"X", 1, "u", none, none, none, none⟩
    ⟨some ⟨[itemMilk], isoT0, some "1.0.0"⟩, ⟨.absent, .absent, true⟩⟩
    ⟨[itemMilk], isoT0, some "1.0.0"⟩ rfl rfl rfl rfl).1

end SmartFridge
